import Mathlib

/-!
Shallow embedding of `src/main.py` (Directory Monitor Pro), a FastAPI service
that tracks file integrity per registered directory.

Modelling conventions:
* A filesystem path is a list of already-normalised components
  (`os.path.normpath` output split on the separator); `os.path.dirname` is
  `List.dropLast` and `os.path.basename` is the last component.
* The filesystem visible to one call is a value of type `FS`: an ordered list
  of regular files, each carrying `some hash` when `hash_file` succeeds on it
  and `none` when `hash_file` raises; a list of existing directories
  (for `os.path.isdir`); and the `os.stat` data of stat-able paths.
  `Path(root).rglob` enumerates the files of `fs` that lie strictly below
  `root`, in the order of `fs.files` (the dict insertion order of the source).
* Python dicts are association lists in insertion order: assignment to an
  existing key keeps its position, a new key is appended; `dict.get` is
  `List.lookup`.
* The module-level mutable state (`dir_db`, `change_log`) is a `ServerState`
  threaded explicitly; an HTTP endpoint returns its `Except` result together
  with the state after the call, and `HTTPException` is the `.error` case.
-/

abbrev FPath := List String

abbrev Fingerprint := String

/-- A directory snapshot: `{file_path: hash}` in dict insertion order. -/
abbrev Snapshot := List (FPath × Fingerprint)

/-- `os.path.basename` on a normalised path. -/
def basename (p : FPath) : String := p.getLastD ""

/-- `os.path.dirname` on a normalised path. -/
def dirname (p : FPath) : FPath := p.dropLast

/-- `p` lies strictly below the directory `root` (what `Path(root).rglob` with
an `is_file` filter enumerates): `root` is a proper prefix of `p`. -/
def isUnder : FPath → FPath → Bool
  | [], p => !p.isEmpty
  | _ :: _, [] => false
  | a :: r, b :: p => a == b && isUnder r p

/-- The filesystem as seen by one endpoint call. -/
structure FS where
  /-- Regular files with `some hash` (readable) or `none` (`hash_file` raises). -/
  files : List (FPath × Option Fingerprint)
  /-- Existing directories, for `os.path.isdir`. -/
  dirs : List FPath
  /-- `os.stat` results `(st_size, st_mtime)`; a missing entry means `os.stat` raises. -/
  stats : List (FPath × Nat × Nat)
  deriving DecidableEq, Repr

/-- `hash_file(filepath)`: SHA-256 of the content, `none` when opening or
reading raises. -/
def hash_file (fs : FS) (p : FPath) : Option Fingerprint :=
  (fs.files.lookup p).join

/-- The scan loop shared by `register_directory` and `verify_changes`:
`for filepath in Path(dir_path).rglob(asterisk): if filepath.is_file(): try:
d[str(filepath)] = hash_file(str(filepath)) except: skip`. -/
def scanDir (fs : FS) (root : FPath) : Snapshot :=
  fs.files.filterMap (fun e =>
    if isUnder root e.1 then Option.map (fun h => (e.1, h)) e.2 else none)

/-- The global `dir_db: {dir_name: {file_path: hash}}`. -/
abbrev DirDB := List (String × Snapshot)

/-- Python dict assignment `db[k] = v`: replace in place when `k` is present,
append otherwise. -/
def dbInsert (db : DirDB) (k : String) (v : Snapshot) : DirDB :=
  if (db.lookup k).isSome then
    db.map (fun e => if e.1 == k then (k, v) else e)
  else
    db ++ [(k, v)]

/-- Python dict assignment `snap[p] = h` inside one directory's snapshot. -/
def snapUpdate (snap : Snapshot) (p : FPath) (h : Fingerprint) : Snapshot :=
  if (snap.lookup p).isSome then
    snap.map (fun e => if e.1 == p then (p, h) else e)
  else
    snap ++ [(p, h)]

/-- The module-level mutable state: `dir_db` and `change_log`. -/
structure ServerState where
  dir_db : DirDB
  change_log : List String
  deriving DecidableEq, Repr

/-- An exception escaping an endpoint: `HTTPException(code, msg)`, or an
uncaught I/O error from `hash_file`. -/
inductive PyError where
  | httpError (code : Nat) (msg : String)
  | ioError
  deriving DecidableEq, Repr

/-- The f-string `f"MODIFIED: {filepath}"` appended to `change_log`. -/
def logEntry (p : FPath) : String := "MODIFIED: " ++ String.intercalate ("/") p

/-- `ChangeHandler.on_modified(event)` (src/main.py lines 20-28).
`event.src_path` is `src_path`, `event.is_directory` is `is_directory`.
`hash_file` is called outside any `try`, so its failure escapes the handler
as `.error .ioError`. -/
def on_modified (fs : FS) (st : ServerState) (src_path : FPath)
    (is_directory : Bool) : Except PyError ServerState :=
  if is_directory then .ok st
  else
    match st.dir_db.lookup (basename (dirname src_path)) with
    | none => .ok st
    | some snap =>
      match hash_file fs src_path with
      | none => .error .ioError
      | some new_hash =>
        if snap.lookup src_path = some new_hash then .ok st
        else
          .ok { dir_db := dbInsert st.dir_db (basename (dirname src_path))
                  (snapUpdate snap src_path new_hash),
                change_log := st.change_log ++ [logEntry src_path] }

/-- Successful response of `POST /register/`. -/
structure RegisterResult where
  directory : FPath
  files_registered : Nat
  deriving DecidableEq, Repr

/-- `register_directory(dir_path)` (src/main.py lines 50-76): reject a
non-directory with HTTP 400, else rescan the tree into `dir_db[dir_name]`
(unreadable files skipped) and report how many files were stored. -/
def register_directory (fs : FS) (st : ServerState) (dir_path : FPath) :
    Except PyError RegisterResult × ServerState :=
  if dir_path ∈ fs.dirs then
    (.ok { directory := dir_path, files_registered := (scanDir fs dir_path).length },
     { st with dir_db := dbInsert st.dir_db (basename dir_path) (scanDir fs dir_path) })
  else
    (.error (.httpError 400 ("Invalid directory path")), st)

/-- `keys` of a snapshot, in dict order. -/
def keys (snap : Snapshot) : List FPath := snap.map Prod.fst

/-- `added = [f for f in current if f not in original]` (line 98). -/
def addedOf (original current : Snapshot) : List FPath :=
  (keys current).filter (fun f => !((keys original).contains f))

/-- `deleted = [f for f in original if f not in current]` (line 99). -/
def deletedOf (original current : Snapshot) : List FPath :=
  (keys original).filter (fun f => !((keys current).contains f))

/-- `modified = [f for f in current if f in original and current[f] != original[f]]`
(line 100). -/
def modifiedOf (original current : Snapshot) : List FPath :=
  (keys current).filter (fun f =>
    (keys original).contains f && !(current.lookup f == original.lookup f))

/-- The complement class of the diff: paths present in both snapshots with
equal fingerprints. Not returned by `verify_changes`; needed to state the
partition property. -/
def unchangedOf (original current : Snapshot) : List FPath :=
  (keys current).filter (fun f =>
    (keys original).contains f && (current.lookup f == original.lookup f))

/-- Lines 86-87: `dir_path = next(iter(original)) if original else ""` then
`dir_path = os.path.dirname(dir_path) if dir_path else ""`. The empty string
is the empty component list. -/
def inferRoot (original : Snapshot) : FPath :=
  match original with
  | [] => []
  | (p, _) :: _ => dirname p

/-- `change_log[-10:]`. -/
def lastN (n : Nat) (l : List String) : List String := l.drop (l.length - n)

/-- Successful response of `GET /verify/{dir_name}`. -/
structure VerifyResult where
  directory : FPath
  added : List FPath
  deleted : List FPath
  modified : List FPath
  recent_changes : List String
  deriving DecidableEq, Repr

/-- `verify_changes(dir_name)` (src/main.py lines 78-111): 404 on an unknown
id; otherwise rescan the directory inferred from the first stored entry,
diff against the stored snapshot, replace the snapshot, and return the diff
plus the last 10 change-log entries. -/
def verify_changes (fs : FS) (st : ServerState) (dir_name : String) :
    Except PyError VerifyResult × ServerState :=
  match st.dir_db.lookup dir_name with
  | none => (.error (.httpError 404 ("Directory not registered")), st)
  | some original =>
    let dir_path := inferRoot original
    let current := scanDir fs dir_path
    (.ok { directory := dir_path,
           added := addedOf original current,
           deleted := deletedOf original current,
           modified := modifiedOf original current,
           recent_changes := lastN 10 st.change_log },
     { st with dir_db := dbInsert st.dir_db dir_name current })

/-- One element of the `files` array of `GET /list/{dir_name}`. -/
structure FileDetail where
  filename : String
  path : FPath
  hash : Fingerprint
  size_bytes : Nat
  last_modified : Nat
  is_text : Bool
  deriving DecidableEq, Repr

/-- `filepath.endswith(('.txt', '.csv', '.json', '.xml'))`; on a normalised
path this is a suffix test on the last component. -/
def isTextFile (p : FPath) : Bool :=
  String.endsWith (basename p) (".txt") || String.endsWith (basename p) (".csv") ||
  String.endsWith (basename p) (".json") || String.endsWith (basename p) (".xml")

/-- Insertion step of `sorted(file_details, key=lambda x: x[filename])`. -/
def insertByName (d : FileDetail) : List FileDetail → List FileDetail
  | [] => [d]
  | e :: rest =>
    if d.filename ≤ e.filename then d :: e :: rest else e :: insertByName d rest

/-- `sorted(file_details, key=lambda x: x[filename])`. -/
def sortByName (l : List FileDetail) : List FileDetail := l.foldr insertByName []

/-- Response of `GET /list/{dir_name}`: the 404 exception, the bare
`{"error": ...}` object of line 124, or the structured listing. -/
inductive ListResult where
  | err (code : Nat) (msg : String)
  | noFiles (msg : String)
  | ok (directory : FPath) (total_files : Nat) (files : List FileDetail)
  deriving DecidableEq, Repr

/-- `list_files(dir_name)` (src/main.py lines 113-146): 404 on an unknown id;
infer the directory from the first stored entry (`""` when the snapshot is
empty) and return a bare error object when that inference is empty; otherwise
stat every tracked file (entries whose `os.stat` raises are skipped) and
return the details sorted by filename. The handler never mutates the module
state, so the state is returned unchanged on every branch. -/
def list_files (fs : FS) (st : ServerState) (dir_name : String) :
    ListResult × ServerState :=
  match st.dir_db.lookup dir_name with
  | none => (.err 404 ("Directory not registered"), st)
  | some snap =>
    let dir_path := inferRoot snap
    if dir_path = [] then (.noFiles ("No files found in directory"), st)
    else
      let details := snap.filterMap (fun e =>
        match fs.stats.lookup e.1 with
        | none => none
        | some (sz, mt) =>
          some { filename := basename e.1, path := e.1, hash := e.2,
                 size_bytes := sz, last_modified := mt, is_text := isTextFile e.1 })
      (.ok dir_path details.length (sortByName details), st)

/-! ### Helper lemmas -/

theorem mem_keys_iff_contains {l : List FPath} {p : FPath} :
    l.contains p = true ↔ p ∈ l :=
  List.elem_iff

theorem mem_addedOf {o c : Snapshot} {p : FPath} :
    p ∈ addedOf o c ↔ p ∈ keys c ∧ p ∉ keys o := by
  simp [addedOf, List.mem_filter]

theorem mem_deletedOf {o c : Snapshot} {p : FPath} :
    p ∈ deletedOf o c ↔ p ∈ keys o ∧ p ∉ keys c := by
  simp [deletedOf, List.mem_filter]

theorem mem_modifiedOf {o c : Snapshot} {p : FPath} :
    p ∈ modifiedOf o c ↔ p ∈ keys c ∧ p ∈ keys o ∧ c.lookup p ≠ o.lookup p := by
  simp [modifiedOf, List.mem_filter]

theorem mem_unchangedOf {o c : Snapshot} {p : FPath} :
    p ∈ unchangedOf o c ↔ p ∈ keys c ∧ p ∈ keys o ∧ c.lookup p = o.lookup p := by
  simp [unchangedOf, List.mem_filter]

theorem addedOf_self (s : Snapshot) : addedOf s s = [] := by
  rw [List.eq_nil_iff_forall_not_mem]
  intro p hp
  exact (mem_addedOf.mp hp).2 (mem_addedOf.mp hp).1

theorem deletedOf_self (s : Snapshot) : deletedOf s s = [] := by
  rw [List.eq_nil_iff_forall_not_mem]
  intro p hp
  exact (mem_deletedOf.mp hp).2 (mem_deletedOf.mp hp).1

theorem modifiedOf_self (s : Snapshot) : modifiedOf s s = [] := by
  rw [List.eq_nil_iff_forall_not_mem]
  intro p hp
  exact (mem_modifiedOf.mp hp).2.2 rfl

theorem lookup_cons_self {β : Type} (a : String) (b : β) (t : List (String × β)) :
    List.lookup a ((a, b) :: t) = some b := by
  simp [List.lookup]

theorem lookup_cons_ne {β : Type} {k a : String} (h : k ≠ a) (b : β)
    (t : List (String × β)) :
    List.lookup k ((a, b) :: t) = List.lookup k t := by
  simp [List.lookup, beq_false_of_ne h]

theorem lookup_replace_self {l : List (String × Snapshot)} {k : String} {v : Snapshot}
    (h : (l.lookup k).isSome = true) :
    (l.map (fun e => if e.1 == k then (k, v) else e)).lookup k = some v := by
  induction l with
  | nil => simp [List.lookup] at h
  | cons e t ih =>
    obtain ⟨a, b⟩ := e
    rw [List.map_cons]
    by_cases hak : a = k
    · subst hak
      have hh : (if ((a, b).1 == a) = true then (a, v) else (a, b)) = (a, v) := by simp
      rw [hh, lookup_cons_self]
    · have hh : (if ((a, b).1 == k) = true then (k, v) else (a, b)) = (a, b) := by
        simp [beq_false_of_ne hak]
      rw [lookup_cons_ne (Ne.symm hak)] at h
      rw [hh, lookup_cons_ne (Ne.symm hak)]
      exact ih h

theorem lookup_replace_other {l : List (String × Snapshot)} {k k' : String}
    {v : Snapshot} (h : k' ≠ k) :
    (l.map (fun e => if e.1 == k then (k, v) else e)).lookup k' = l.lookup k' := by
  induction l with
  | nil => simp
  | cons e t ih =>
    obtain ⟨a, b⟩ := e
    rw [List.map_cons]
    by_cases hak : a = k
    · subst hak
      have hh : (if ((a, b).1 == a) = true then (a, v) else (a, b)) = (a, v) := by simp
      rw [hh, lookup_cons_ne h, lookup_cons_ne h]
      exact ih
    · have hh : (if ((a, b).1 == k) = true then (k, v) else (a, b)) = (a, b) := by
        simp [beq_false_of_ne hak]
      rw [hh]
      by_cases hk' : k' = a
      · subst hk'
        rw [lookup_cons_self, lookup_cons_self]
      · rw [lookup_cons_ne hk', lookup_cons_ne hk']
        exact ih

theorem lookup_append_self {l : List (String × Snapshot)} {k : String} {v : Snapshot}
    (h : l.lookup k = none) :
    (l ++ [(k, v)]).lookup k = some v := by
  induction l with
  | nil => rw [List.nil_append, lookup_cons_self]
  | cons e t ih =>
    obtain ⟨a, b⟩ := e
    by_cases hka : k = a
    · subst hka
      rw [lookup_cons_self] at h
      cases h
    · rw [lookup_cons_ne hka] at h
      rw [List.cons_append, lookup_cons_ne hka]
      exact ih h

theorem lookup_append_other {l : List (String × Snapshot)} {k k' : String}
    {v : Snapshot} (h : k' ≠ k) :
    (l ++ [(k, v)]).lookup k' = l.lookup k' := by
  induction l with
  | nil => rw [List.nil_append, lookup_cons_ne h]
  | cons e t ih =>
    obtain ⟨a, b⟩ := e
    by_cases hka : k' = a
    · subst hka
      rw [List.cons_append, lookup_cons_self, lookup_cons_self]
    · rw [List.cons_append, lookup_cons_ne hka, lookup_cons_ne hka]
      exact ih

theorem lookup_dbInsert_self (db : DirDB) (k : String) (v : Snapshot) :
    (dbInsert db k v).lookup k = some v := by
  unfold dbInsert
  split
  · exact lookup_replace_self (by assumption)
  · exact lookup_append_self (Option.not_isSome_iff_eq_none.mp (by assumption))

theorem lookup_dbInsert_other {db : DirDB} {k k' : String} {v : Snapshot}
    (h : k' ≠ k) :
    (dbInsert db k v).lookup k' = db.lookup k' := by
  unfold dbInsert
  split
  · exact lookup_replace_other h
  · exact lookup_append_other h

/-- `verify_changes` on a registered id, written out. -/
theorem verify_changes_eq (fs : FS) (st : ServerState) (dir_name : String)
    (snap : Snapshot) (h : st.dir_db.lookup dir_name = some snap) :
    verify_changes fs st dir_name =
      (.ok { directory := inferRoot snap,
             added := addedOf snap (scanDir fs (inferRoot snap)),
             deleted := deletedOf snap (scanDir fs (inferRoot snap)),
             modified := modifiedOf snap (scanDir fs (inferRoot snap)),
             recent_changes := lastN 10 st.change_log },
       { st with dir_db := dbInsert st.dir_db dir_name (scanDir fs (inferRoot snap)) }) := by
  unfold verify_changes
  rw [h]

theorem length_filterMap_eq_length_filter {α β : Type} (f : α → Option β)
    (l : List α) :
    (l.filterMap f).length = (l.filter (fun a => (f a).isSome)).length := by
  induction l with
  | nil => rfl
  | cons a t ih =>
    cases h : f a <;> simp [List.filterMap_cons, h, List.filter_cons, ih]

theorem nodupKeys_value_eq {α β : Type} {l : List (α × β)}
    (h : (l.map Prod.fst).Nodup) {a : α} {b₁ b₂ : β}
    (h₁ : (a, b₁) ∈ l) (h₂ : (a, b₂) ∈ l) : b₁ = b₂ := by
  induction l with
  | nil => cases h₁
  | cons e t ih =>
    obtain ⟨c, d⟩ := e
    rw [List.map_cons, List.nodup_cons] at h
    rcases List.mem_cons.mp h₁ with h₁ | h₁ <;>
      rcases List.mem_cons.mp h₂ with h₂ | h₂
    · rw [← h₂] at h₁
      exact congrArg Prod.snd h₁
    · have hc : c = a := congrArg Prod.fst h₁.symm
      subst hc
      exact absurd (List.mem_map_of_mem Prod.fst h₂) h.1
    · have hc : c = a := congrArg Prod.fst h₂.symm
      subst hc
      exact absurd (List.mem_map_of_mem Prod.fst h₁) h.1
    · exact ih h.2 h₁ h₂

theorem on_modified_eq_of_some (fs : FS) (st : ServerState) (p : FPath)
    (snap : Snapshot) (nh : Fingerprint)
    (hreg : st.dir_db.lookup (basename (dirname p)) = some snap)
    (hh : hash_file fs p = some nh) :
    on_modified fs st p false =
      if snap.lookup p = some nh then Except.ok st
      else
        Except.ok { dir_db := dbInsert st.dir_db (basename (dirname p)) (snapUpdate snap p nh),
                    change_log := st.change_log ++ [logEntry p] } := by
  unfold on_modified
  rw [hreg, hh]
  rfl

theorem on_modified_eq_of_unknown (fs : FS) (st : ServerState) (p : FPath)
    (hreg : st.dir_db.lookup (basename (dirname p)) = none) :
    on_modified fs st p false = Except.ok st := by
  unfold on_modified
  rw [hreg]
  rfl

theorem on_modified_eq_of_unreadable (fs : FS) (st : ServerState) (p : FPath)
    (snap : Snapshot)
    (hreg : st.dir_db.lookup (basename (dirname p)) = some snap)
    (hh : hash_file fs p = none) :
    on_modified fs st p false = Except.error PyError.ioError := by
  unfold on_modified
  rw [hreg, hh]
  rfl

/-! ### Claim theorems -/

/-- C1: for every pair of snapshots, every path in the union of the two key
sets falls into exactly one of the four classes added / deleted / modified /
unchanged computed by `verify_changes`'s diff. -/
theorem verify_diff_partition (original current : Snapshot) (p : FPath)
    (hp : p ∈ keys original ∨ p ∈ keys current) :
    (p ∈ addedOf original current ∧ p ∉ deletedOf original current ∧
       p ∉ modifiedOf original current ∧ p ∉ unchangedOf original current) ∨
    (p ∉ addedOf original current ∧ p ∈ deletedOf original current ∧
       p ∉ modifiedOf original current ∧ p ∉ unchangedOf original current) ∨
    (p ∉ addedOf original current ∧ p ∉ deletedOf original current ∧
       p ∈ modifiedOf original current ∧ p ∉ unchangedOf original current) ∨
    (p ∉ addedOf original current ∧ p ∉ deletedOf original current ∧
       p ∉ modifiedOf original current ∧ p ∈ unchangedOf original current) := by
  by_cases hc : p ∈ keys current <;> by_cases ho : p ∈ keys original
  · by_cases he : current.lookup p = original.lookup p
    · refine Or.inr (Or.inr (Or.inr ⟨?_, ?_, ?_, ?_⟩)) <;>
        simp [mem_addedOf, mem_deletedOf, mem_modifiedOf, mem_unchangedOf, hc, ho, he]
    · refine Or.inr (Or.inr (Or.inl ⟨?_, ?_, ?_, ?_⟩)) <;>
        simp [mem_addedOf, mem_deletedOf, mem_modifiedOf, mem_unchangedOf, hc, ho, he]
  · refine Or.inl ⟨?_, ?_, ?_, ?_⟩ <;>
      simp [mem_addedOf, mem_deletedOf, mem_modifiedOf, mem_unchangedOf, hc, ho]
  · refine Or.inr (Or.inl ⟨?_, ?_, ?_, ?_⟩) <;>
      simp [mem_addedOf, mem_deletedOf, mem_modifiedOf, mem_unchangedOf, hc, ho]
  · rcases hp with hp | hp
    · exact absurd hp ho
    · exact absurd hp hc

/-- Witness for C1 at a concrete pair of snapshots: the path is in exactly
the modified class. -/
theorem verify_diff_partition_witness :
    ((["a"] : FPath) ∈ keys ([(["a"], "x")] : Snapshot) ∨
       (["a"] : FPath) ∈ keys ([(["a"], "y")] : Snapshot)) ∧
    ((["a"] ∈ addedOf [(["a"], "x")] [(["a"], "y")] ∧
        ["a"] ∉ deletedOf [(["a"], "x")] [(["a"], "y")] ∧
        ["a"] ∉ modifiedOf [(["a"], "x")] [(["a"], "y")] ∧
        ["a"] ∉ unchangedOf [(["a"], "x")] [(["a"], "y")]) ∨
     (["a"] ∉ addedOf [(["a"], "x")] [(["a"], "y")] ∧
        ["a"] ∈ deletedOf [(["a"], "x")] [(["a"], "y")] ∧
        ["a"] ∉ modifiedOf [(["a"], "x")] [(["a"], "y")] ∧
        ["a"] ∉ unchangedOf [(["a"], "x")] [(["a"], "y")]) ∨
     (["a"] ∉ addedOf [(["a"], "x")] [(["a"], "y")] ∧
        ["a"] ∉ deletedOf [(["a"], "x")] [(["a"], "y")] ∧
        ["a"] ∈ modifiedOf [(["a"], "x")] [(["a"], "y")] ∧
        ["a"] ∉ unchangedOf [(["a"], "x")] [(["a"], "y")]) ∨
     (["a"] ∉ addedOf [(["a"], "x")] [(["a"], "y")] ∧
        ["a"] ∉ deletedOf [(["a"], "x")] [(["a"], "y")] ∧
        ["a"] ∉ modifiedOf [(["a"], "x")] [(["a"], "y")] ∧
        ["a"] ∈ unchangedOf [(["a"], "x")] [(["a"], "y")])) :=
  ⟨by decide, verify_diff_partition [(["a"], "x")] [(["a"], "y")] ["a"] (by decide)⟩

/-- C5: on a modification event for a file whose parent directory's base name
is registered and whose re-fingerprinting succeeds, the watcher appends
exactly one change-log entry and updates the stored snapshot entry when the
new fingerprint differs from the stored one (or the file was unknown), and
changes nothing when the fingerprints agree. -/
theorem on_modified_update_behavior (fs : FS) (st : ServerState) (p : FPath)
    (snap : Snapshot)
    (hreg : st.dir_db.lookup (basename (dirname p)) = some snap)
    (newh : Fingerprint) (hh : hash_file fs p = some newh) :
    (snap.lookup p ≠ some newh →
      on_modified fs st p false =
        Except.ok { dir_db := dbInsert st.dir_db (basename (dirname p)) (snapUpdate snap p newh),
                    change_log := st.change_log ++ [logEntry p] }) ∧
    (snap.lookup p = some newh → on_modified fs st p false = Except.ok st) := by
  constructor <;> intro hc
  · rw [on_modified_eq_of_some fs st p snap newh hreg hh, if_neg hc]
  · rw [on_modified_eq_of_some fs st p snap newh hreg hh, if_pos hc]

/-- Witness for C5: a concrete modification event whose new fingerprint
differs from the stored one appends one log entry and rewrites the entry. -/
theorem on_modified_update_behavior_witness :
    on_modified ⟨[(["d","f"], some ("h2"))], [["d"]], []⟩
        ⟨[("d", [(["d","f"], "h1")])], []⟩ ["d","f"] false =
      Except.ok ⟨[("d", [(["d","f"], "h2")])], ["MODIFIED: d/f"]⟩ :=
  ((on_modified_update_behavior ⟨[(["d","f"], some ("h2"))], [["d"]], []⟩
      ⟨[("d", [(["d","f"], "h1")])], []⟩ ["d","f"] [(["d","f"], "h1")] (by decide)
      "h2" (by decide)).1 (by decide)).trans (by rfl)

/-- C6: the claim describes the intended skip-on-read-failure policy; the
code calls `hash_file` outside any `try`, so on an unreadable file the
exception escapes `on_modified` instead of being swallowed (state is indeed
left unchanged, but the error propagates). Evaluation at the failing
input. -/
theorem on_modified_unreadable_raises :
    on_modified ⟨[(["d","f"], none)], [["d"]], []⟩
        ⟨[("d", [(["d","f"], "h")])], []⟩ ["d","f"] false =
      Except.error PyError.ioError := by
  rfl

/-- C7: verify and list on an unregistered id both fail with the 404
"Directory not registered" error and leave the state unchanged. -/
theorem unknown_id_rejected (fs : FS) (st : ServerState) (dir_name : String)
    (h : st.dir_db.lookup dir_name = none) :
    verify_changes fs st dir_name =
      (Except.error (PyError.httpError 404 ("Directory not registered")), st) ∧
    list_files fs st dir_name =
      (ListResult.err 404 ("Directory not registered"), st) := by
  constructor
  · unfold verify_changes
    rw [h]
  · unfold list_files
    rw [h]

/-- Witness for C7 at a concrete unregistered id. -/
theorem unknown_id_rejected_witness :
    (ServerState.mk [] []).dir_db.lookup ("doesNotExist") = none ∧
    (verify_changes ⟨[], [], []⟩ ⟨[], []⟩ ("doesNotExist") =
      (Except.error (PyError.httpError 404 ("Directory not registered")), ⟨[], []⟩) ∧
     list_files ⟨[], [], []⟩ ⟨[], []⟩ ("doesNotExist") =
      (ListResult.err 404 ("Directory not registered"), ⟨[], []⟩)) :=
  ⟨by decide, unknown_id_rejected ⟨[], [], []⟩ ⟨[], []⟩ ("doesNotExist") (by decide)⟩

/-- C8: a successful verify surfaces exactly the last 10 entries of the
process-wide change log, in append order: the returned slice is the drop of
all but the last 10, a suffix of the log, of length `min 10 |log|`. -/
theorem verify_recent_changes_last_ten (fs : FS) (st : ServerState)
    (dir_name : String) (snap : Snapshot)
    (h : st.dir_db.lookup dir_name = some snap) :
    ∃ v, (verify_changes fs st dir_name).1 = Except.ok v ∧
      v.recent_changes = st.change_log.drop (st.change_log.length - 10) ∧
      v.recent_changes <:+ st.change_log ∧
      v.recent_changes.length = min 10 st.change_log.length := by
  rw [verify_changes_eq fs st dir_name snap h]
  refine ⟨_, rfl, rfl, ?_, ?_⟩
  · show lastN 10 st.change_log <:+ st.change_log
    unfold lastN
    exact List.drop_suffix _ _
  · show (lastN 10 st.change_log).length = min 10 st.change_log.length
    unfold lastN
    rw [List.length_drop]
    omega

/-- Witness for C8: a registered id with a 12-entry change log; the last 10
entries are returned. -/
theorem verify_recent_changes_last_ten_witness :
    (ServerState.mk [("d", [])]
        ["e1","e2","e3","e4","e5","e6","e7","e8","e9","e10","e11","e12"]).dir_db.lookup
      ("d") = some [] ∧
    ∃ v, (verify_changes ⟨[], [], []⟩
        ⟨[("d", [])], ["e1","e2","e3","e4","e5","e6","e7","e8","e9","e10","e11","e12"]⟩
        ("d")).1 = Except.ok v ∧
      v.recent_changes =
        (["e1","e2","e3","e4","e5","e6","e7","e8","e9","e10","e11","e12"] : List String).drop
          ((["e1","e2","e3","e4","e5","e6","e7","e8","e9","e10","e11","e12"] : List String).length - 10) ∧
      v.recent_changes <:+ ["e1","e2","e3","e4","e5","e6","e7","e8","e9","e10","e11","e12"] ∧
      v.recent_changes.length =
        min 10 (["e1","e2","e3","e4","e5","e6","e7","e8","e9","e10","e11","e12"] : List String).length :=
  ⟨by decide, verify_recent_changes_last_ten ⟨[], [], []⟩
    ⟨[("d", [])], ["e1","e2","e3","e4","e5","e6","e7","e8","e9","e10","e11","e12"]⟩
    ("d") [] (by decide)⟩

/-- C10: list on a registered id whose stored snapshot is empty returns the
bare error object instead of the structured listing and raises no HTTP
error. -/
theorem list_empty_snapshot_error_object (fs : FS) (st : ServerState)
    (dir_name : String) (h : st.dir_db.lookup dir_name = some []) :
    list_files fs st dir_name =
      (ListResult.noFiles ("No files found in directory"), st) := by
  unfold list_files
  rw [h]
  rfl

/-- Witness for C10 at a concrete registered id with an empty snapshot. -/
theorem list_empty_snapshot_error_object_witness :
    (ServerState.mk [("d", [])] []).dir_db.lookup ("d") = some [] ∧
    list_files ⟨[(["x","f"], some ("h"))], [], []⟩ ⟨[("d", [])], []⟩ ("d") =
      (ListResult.noFiles ("No files found in directory"), ⟨[("d", [])], []⟩) :=
  ⟨by decide, list_empty_snapshot_error_object ⟨[(["x","f"], some ("h"))], [], []⟩
    ⟨[("d", [])], []⟩ ("d") (by decide)⟩

/-- C4: registering a valid directory whose tree holds N fingerprint-able
files and M unreadable ones succeeds, reports exactly the N readable files,
and stores a snapshot from which every unreadable file is absent. -/
theorem register_counts_readable_files (fs : FS) (st : ServerState)
    (dir_path : FPath) (hdir : dir_path ∈ fs.dirs)
    (hnd : (fs.files.map Prod.fst).Nodup) :
    (register_directory fs st dir_path).1 =
      Except.ok { directory := dir_path,
                  files_registered :=
                    (fs.files.filter
                      (fun e => isUnder dir_path e.1 && e.2.isSome)).length } ∧
    (∀ p : FPath, (p, (none : Option Fingerprint)) ∈ fs.files →
      p ∉ keys (scanDir fs dir_path)) ∧
    ((register_directory fs st dir_path).2).dir_db.lookup (basename dir_path) =
      some (scanDir fs dir_path) := by
  refine ⟨?_, ?_, ?_⟩
  · unfold register_directory
    rw [if_pos hdir]
    have hlen : (scanDir fs dir_path).length =
        (fs.files.filter (fun e => isUnder dir_path e.1 && e.2.isSome)).length := by
      unfold scanDir
      rw [length_filterMap_eq_length_filter]
      congr 1
      apply List.filter_congr
      intro e _
      by_cases hu : isUnder dir_path e.1 <;> cases he : e.2 <;> simp [hu, he]
    rw [hlen]
  · intro p hpnone hpmem
    unfold keys at hpmem
    rcases List.mem_map.mp hpmem with ⟨e, he, hfst⟩
    unfold scanDir at he
    rcases List.mem_filterMap.mp he with ⟨a, ha, hfa⟩
    by_cases hu : isUnder dir_path a.1
    · rw [if_pos hu] at hfa
      cases ha2 : a.2 with
      | none => rw [ha2] at hfa; cases hfa
      | some hsh =>
        rw [ha2] at hfa
        rw [Option.map_some'] at hfa
        have he1 : e = (a.1, hsh) := (Option.some.inj hfa).symm
        have hap : a.1 = p := by rw [he1] at hfst; exact hfst
        have hmem2 : (p, some hsh) ∈ fs.files := by
          have : a = (a.1, a.2) := rfl
          rw [this, ha2, hap] at ha
          exact ha
        cases nodupKeys_value_eq hnd hpnone hmem2
    · rw [if_neg hu] at hfa
      cases hfa
  · unfold register_directory
    rw [if_pos hdir]
    exact lookup_dbInsert_self st.dir_db (basename dir_path) (scanDir fs dir_path)

/-- Witness for C4: a directory with two readable files and one unreadable
file registers exactly the two readable ones. -/
theorem register_counts_readable_files_witness :
    ((["d"] : FPath) ∈ (FS.mk [(["d","a"], some ("x")), (["d","b"], none),
        (["d","c"], some ("y"))] [["d"]] []).dirs ∧
      ((FS.mk [(["d","a"], some ("x")), (["d","b"], none),
        (["d","c"], some ("y"))] [["d"]] []).files.map Prod.fst).Nodup) ∧
    ((register_directory (FS.mk [(["d","a"], some ("x")), (["d","b"], none),
        (["d","c"], some ("y"))] [["d"]] []) ⟨[], []⟩ ["d"]).1 =
      Except.ok { directory := ["d"],
                  files_registered :=
                    ((FS.mk [(["d","a"], some ("x")), (["d","b"], none),
                      (["d","c"], some ("y"))] [["d"]] []).files.filter
                      (fun e => isUnder ["d"] e.1 && e.2.isSome)).length } ∧
     (∀ p : FPath, (p, (none : Option Fingerprint)) ∈
        (FS.mk [(["d","a"], some ("x")), (["d","b"], none),
          (["d","c"], some ("y"))] [["d"]] []).files →
        p ∉ keys (scanDir (FS.mk [(["d","a"], some ("x")), (["d","b"], none),
          (["d","c"], some ("y"))] [["d"]] []) ["d"])) ∧
     ((register_directory (FS.mk [(["d","a"], some ("x")), (["d","b"], none),
        (["d","c"], some ("y"))] [["d"]] []) ⟨[], []⟩ ["d"]).2).dir_db.lookup
          (basename ["d"]) =
        some (scanDir (FS.mk [(["d","a"], some ("x")), (["d","b"], none),
          (["d","c"], some ("y"))] [["d"]] []) ["d"])) :=
  ⟨⟨by decide, by decide⟩,
   register_counts_readable_files (FS.mk [(["d","a"], some ("x")), (["d","b"], none),
     (["d","c"], some ("y"))] [["d"]] []) ⟨[], []⟩ ["d"] (by decide) (by decide)⟩

/-- C2 counterexample: register root ["d"] holding files only in its
subdirectories s1 and s2; with no filesystem change, the first verify infers
the rescan root ["d","s1"] from the snapshot's first entry and reports
["d","s2","b"] as deleted, so the two diffs are not both empty. -/
theorem verify_twice_not_idempotent_cex :
    (verify_changes (FS.mk [(["d","s1","a"], some ("h1")), (["d","s2","b"], some ("h2"))]
        [["d"], ["d","s1"], ["d","s2"]] [])
      ((register_directory (FS.mk [(["d","s1","a"], some ("h1")), (["d","s2","b"], some ("h2"))]
        [["d"], ["d","s1"], ["d","s2"]] []) ⟨[], []⟩ ["d"]).2) ("d")).1 =
      Except.ok { directory := ["d","s1"], added := [], deleted := [["d","s2","b"]],
                  modified := [], recent_changes := [] } ∧
    ([["d","s2","b"]] : List FPath) ≠ [] := by
  constructor
  · rfl
  · decide

/-- C2 (amended): calling verify twice with no filesystem change yields empty
added/deleted/modified both times provided the stored snapshot is the scan of
a root R whose first entry lies directly in R (so the root verify infers from
that entry is R itself); without that proviso the claim fails, because verify
rescans the parent of the first snapshot entry, which can be a strict
subdirectory of the registered root. -/
theorem verify_twice_idempotent_inferred_root (fs : FS) (st : ServerState)
    (dir_name : String) (R : FPath)
    (hsnap : st.dir_db.lookup dir_name = some (scanDir fs R))
    (hroot : inferRoot (scanDir fs R) = R) :
    ∃ v₁ st₁ v₂ st₂,
      verify_changes fs st dir_name = (Except.ok v₁, st₁) ∧
      verify_changes fs st₁ dir_name = (Except.ok v₂, st₂) ∧
      v₁.added = [] ∧ v₁.deleted = [] ∧ v₁.modified = [] ∧
      v₂.added = [] ∧ v₂.deleted = [] ∧ v₂.modified = [] := by
  have h1 := verify_changes_eq fs st dir_name (scanDir fs R) hsnap
  rw [hroot] at h1
  have h2 := verify_changes_eq fs
    { st with dir_db := dbInsert st.dir_db dir_name (scanDir fs R) } dir_name
    (scanDir fs R) (lookup_dbInsert_self st.dir_db dir_name (scanDir fs R))
  rw [hroot] at h2
  refine ⟨_, _, _, _, h1, h2, ?_, ?_, ?_, ?_, ?_, ?_⟩
  · exact addedOf_self _
  · exact deletedOf_self _
  · exact modifiedOf_self _
  · exact addedOf_self _
  · exact deletedOf_self _
  · exact modifiedOf_self _

/-- Witness for the amended C2: a root whose single file lies directly in it;
both verifies report empty diffs. -/
theorem verify_twice_idempotent_inferred_root_witness :
    ((ServerState.mk [("d", [(["d","a"], "h")])] []).dir_db.lookup ("d") =
        some (scanDir (FS.mk [(["d","a"], some ("h"))] [["d"]] []) ["d"]) ∧
      inferRoot (scanDir (FS.mk [(["d","a"], some ("h"))] [["d"]] []) ["d"]) = ["d"]) ∧
    (∃ v₁ st₁ v₂ st₂,
      verify_changes (FS.mk [(["d","a"], some ("h"))] [["d"]] [])
          ⟨[("d", [(["d","a"], "h")])], []⟩ ("d") = (Except.ok v₁, st₁) ∧
      verify_changes (FS.mk [(["d","a"], some ("h"))] [["d"]] []) st₁ ("d") =
          (Except.ok v₂, st₂) ∧
      v₁.added = [] ∧ v₁.deleted = [] ∧ v₁.modified = [] ∧
      v₂.added = [] ∧ v₂.deleted = [] ∧ v₂.modified = []) :=
  ⟨⟨by decide, by decide⟩,
   verify_twice_idempotent_inferred_root (FS.mk [(["d","a"], some ("h"))] [["d"]] [])
     ⟨[("d", [(["d","a"], "h")])], []⟩ ("d") ["d"] (by decide) (by decide)⟩

/-- C3 counterexample: after registering root ["d"] whose only file lives in
the subdirectory ["d","s"], verify rescans ["d","s"] — the parent directory
of the first snapshot entry — instead of the registered root ["d"]; no root
path is stored in the catalog. -/
theorem verify_root_not_tracked_cex :
    (verify_changes (FS.mk [(["d","s","a"], some ("h"))] [["d"], ["d","s"]] [])
        ((register_directory (FS.mk [(["d","s","a"], some ("h"))] [["d"], ["d","s"]] [])
          ⟨[], []⟩ ["d"]).2) ("d")).1 =
      Except.ok { directory := ["d","s"], added := [], deleted := [], modified := [],
                  recent_changes := [] } ∧
    (["d","s"] : FPath) ≠ ["d"] := by
  constructor
  · rfl
  · decide

/-- C3 (amended): the catalog stores only the per-id snapshot, never the
registered root path; verify rescans the parent directory of the snapshot's
first entry — the empty path when the snapshot is empty — and diffs against
that rescan, rather than rescanning the registered root. -/
theorem verify_rescans_inferred_parent (fs : FS) (st : ServerState)
    (dir_name : String) (snap : Snapshot)
    (h : st.dir_db.lookup dir_name = some snap) :
    ∃ v, (verify_changes fs st dir_name).1 = Except.ok v ∧
      v.directory = (match snap with
        | [] => ([] : FPath)
        | (p, _) :: _ => dirname p) ∧
      v.added = addedOf snap (scanDir fs v.directory) ∧
      v.deleted = deletedOf snap (scanDir fs v.directory) ∧
      v.modified = modifiedOf snap (scanDir fs v.directory) := by
  rw [verify_changes_eq fs st dir_name snap h]
  refine ⟨_, rfl, ?_, rfl, rfl, rfl⟩
  cases snap with
  | nil => rfl
  | cons e t =>
    obtain ⟨p, q⟩ := e
    rfl

/-- Witness for the amended C3: a snapshot whose first entry lies in the
subdirectory ["d","s"]; verify reports directory ["d","s"]. -/
theorem verify_rescans_inferred_parent_witness :
    (ServerState.mk [("d", [(["d","s","a"], "h")])] []).dir_db.lookup ("d") =
        some [(["d","s","a"], "h")] ∧
    (∃ v, (verify_changes (FS.mk [(["d","s","a"], some ("h"))] [] [])
        ⟨[("d", [(["d","s","a"], "h")])], []⟩ ("d")).1 = Except.ok v ∧
      v.directory = ["d","s"] ∧
      v.added = addedOf [(["d","s","a"], "h")]
        (scanDir (FS.mk [(["d","s","a"], some ("h"))] [] []) v.directory) ∧
      v.deleted = deletedOf [(["d","s","a"], "h")]
        (scanDir (FS.mk [(["d","s","a"], some ("h"))] [] []) v.directory) ∧
      v.modified = modifiedOf [(["d","s","a"], "h")]
        (scanDir (FS.mk [(["d","s","a"], some ("h"))] [] []) v.directory)) :=
  ⟨by decide,
   verify_rescans_inferred_parent (FS.mk [(["d","s","a"], some ("h"))] [] [])
     ⟨[("d", [(["d","s","a"], "h")])], []⟩ ("d") [(["d","s","a"], "h")] (by decide)⟩

/-- C9 counterexample: root ["d"] is registered with its file
["d","d","f"] in a subdirectory whose base name equals the root's id; a
modification event for that file IS applied to the root's snapshot (and
logged), because the watcher keys the update by the parent directory's base
name. -/
theorem watcher_subdir_applied_cex :
    (on_modified (FS.mk [(["d","d","f"], some ("h2"))] [["d"], ["d","d"]] [])
        ((register_directory (FS.mk [(["d","d","f"], some ("h1"))] [["d"], ["d","d"]] [])
          ⟨[], []⟩ ["d"]).2) ["d","d","f"] false =
      Except.ok ⟨[("d", [(["d","d","f"], "h2")])], ["MODIFIED: d/d/f"]⟩) ∧
    ((register_directory (FS.mk [(["d","d","f"], some ("h1"))] [["d"], ["d","d"]] [])
        ⟨[], []⟩ ["d"]).2).dir_db.lookup ("d") ≠ some [(["d","d","f"], "h2")] := by
  constructor
  · rfl
  · decide

/-- C9 (amended): the watcher keys updates by the base name of the event
file's immediate parent directory: when that base name is not registered the
event changes nothing, and a completed event never changes the snapshot of
any id other than that base name. An event on a file inside a subdirectory
of a registered root is therefore applied to the root's snapshot exactly
when the subdirectory's base name equals the root's id. -/
theorem watcher_keyed_by_parent_basename (fs : FS) (st : ServerState)
    (p : FPath) (is_directory : Bool) :
    (st.dir_db.lookup (basename (dirname p)) = none →
      on_modified fs st p is_directory = Except.ok st) ∧
    (∀ st' : ServerState, on_modified fs st p is_directory = Except.ok st' →
      ∀ id : String, id ≠ basename (dirname p) →
        st'.dir_db.lookup id = st.dir_db.lookup id) := by
  cases is_directory
  case false =>
    constructor
    · intro h
      exact on_modified_eq_of_unknown fs st p h
    · intro st' h id hid
      rcases hdb : st.dir_db.lookup (basename (dirname p)) with _ | snap
      · rw [on_modified_eq_of_unknown fs st p hdb] at h
        injection h with hst
        rw [← hst]
      · rcases hhash : hash_file fs p with _ | nh
        · rw [on_modified_eq_of_unreadable fs st p snap hdb hhash] at h
          cases h
        · rw [on_modified_eq_of_some fs st p snap nh hdb hhash] at h
          by_cases hc : snap.lookup p = some nh
          · rw [if_pos hc] at h
            injection h with hst
            rw [← hst]
          · rw [if_neg hc] at h
            injection h with hst
            rw [← hst]
            exact lookup_dbInsert_other hid
  case true =>
    constructor
    · intro _
      rfl
    · intro st' h id _
      have h' : (Except.ok st : Except PyError ServerState) = Except.ok st' := h
      injection h' with hst
      rw [← hst]

/-- Witness for the amended C9: an event for ["d","s","a"] — parent base
name "s", which is not a registered id — leaves the state unchanged even
though the file lies under the registered root ["d"]. -/
theorem watcher_keyed_by_parent_basename_witness :
    (ServerState.mk [("d", [(["d","s","a"], "h")])] []).dir_db.lookup
        (basename (dirname ["d","s","a"])) = none ∧
    on_modified (FS.mk [(["d","s","a"], some ("h2"))] [] [])
        ⟨[("d", [(["d","s","a"], "h")])], []⟩ ["d","s","a"] false =
      Except.ok ⟨[("d", [(["d","s","a"], "h")])], []⟩ :=
  ⟨by decide,
   (watcher_keyed_by_parent_basename (FS.mk [(["d","s","a"], some ("h2"))] [] [])
     ⟨[("d", [(["d","s","a"], "h")])], []⟩ ["d","s","a"] false).1 (by decide)⟩
